import Mathlib

/-!
Shallow embedding of the puplabs-analytics metric / attribution pipeline.

Numbers: the TypeScript code computes on JS numbers; decimal amounts and the
derived metrics are modelled as exact rationals (ℚ), session and order counts
as integers.  JS `Math.round` is `⌊x + 1/2⌋` (ties toward +∞).
-/

namespace PupLabs

/-- JS `Math.round`: round to the nearest integer, ties toward positive
infinity. -/
def jsRound (x : ℚ) : ℤ := ⌊x + 1/2⌋

/-- The 2-decimal rounding used throughout the code:
`Math.round(x * 100) / 100`. -/
def round2 (x : ℚ) : ℚ := (jsRound (x * 100) : ℚ) / 100

/-- Modelled from the spec: rounding "to 2 decimal places using
round-half-away-from-zero".  Ties move away from zero in both directions.
This definition follows the spec's words and is compared against the code's
`round2`. -/
def roundHalfAwayFromZero (x : ℚ) : ℤ := if 0 ≤ x then ⌊x + 1/2⌋ else -⌊-x + 1/2⌋

/-- Modelled from the spec: 2-decimal round-half-away-from-zero. -/
def specRound2 (x : ℚ) : ℚ := (roundHalfAwayFromZero (x * 100) : ℚ) / 100

/-- Output record of `calculatePageMetrics` (src/lib/calculations.ts). -/
structure PageMetrics where
  url : String
  productTitle : String
  sessions : ℤ
  totalRevenue : ℚ
  revenuePerVisitor : ℚ
  conversionRate : ℚ
  aov : ℚ
  orderCount : ℤ
deriving Repr, DecidableEq

/-- `calculatePageMetrics` from src/lib/calculations.ts lines 58-79:
derived metrics with zero-division guards, each result rounded via
`Math.round(v * 100) / 100`. -/
def calculatePageMetrics (url productTitle : String) (sessions : ℤ)
    (productRevenue : ℚ) (orderCount : ℤ) : PageMetrics :=
  let revenuePerVisitor : ℚ := if sessions > 0 then productRevenue / sessions else 0
  let conversionRate : ℚ := if sessions > 0 then ((orderCount : ℚ) / sessions) * 100 else 0
  let aov : ℚ := if orderCount > 0 then productRevenue / orderCount else 0
  { url := url
    productTitle := productTitle
    sessions := sessions
    totalRevenue := round2 productRevenue
    revenuePerVisitor := round2 revenuePerVisitor
    conversionRate := round2 conversionRate
    aov := round2 aov
    orderCount := orderCount }

theorem round2_zero : round2 0 = 0 := by
  have h : ⌊(0 : ℚ) + 1/2⌋ = 0 := by
    rw [Int.floor_eq_zero_iff]
    constructor
    · norm_num
    · norm_num
  simp [round2, jsRound, h]
  norm_num

theorem round2_eq_specRound2_of_nonneg {x : ℚ} (hx : 0 ≤ x) :
    round2 x = specRound2 x := by
  have h100 : 0 ≤ x * 100 := by positivity
  unfold round2 specRound2 jsRound roundHalfAwayFromZero
  rw [if_pos h100]

/-- JS `String.prototype.toLowerCase`, restricted to the ASCII range used by
this code base (tags, paths). -/
def jsToLower (s : String) : String := String.mk (s.data.map Char.toLower)

/-- JS `String.prototype.trim`: strip leading and trailing whitespace. -/
def jsTrim (s : String) : String :=
  String.mk (((s.data.dropWhile Char.isWhitespace).reverse.dropWhile
    Char.isWhitespace).reverse)

/-- Split a character list at every occurrence of `sep`, keeping empty
pieces, as JS `String.prototype.split` does. -/
def splitChars (sep : Char) : List Char → List (List Char)
  | [] => [[]]
  | c :: cs =>
    let r := splitChars sep cs
    if c = sep then [] :: r
    else
      match r with
      | [] => [[c]]
      | h :: t => (c :: h) :: t

/-- JS `s.split(sep)` for a one-character separator. -/
def jsSplit (sep : Char) (s : String) : List String :=
  (splitChars sep s.data).map String.mk

end PupLabs

namespace PupLabs

/-- C1: for every page computed by calculatePageMetrics, the derived fields
equal the guarded quotients of the claim — revenuePerVisitor and
conversionRate are the rounded quotients when sessions > 0 and 0 when
sessions = 0; averageOrderValue is the rounded quotient when orderCount > 0
and 0 when orderCount = 0. -/
theorem c1_calculatePageMetrics_invariants (url title : String) (sessions : ℤ)
    (revenue : ℚ) (orderCount : ℤ) :
    (sessions > 0 →
      (calculatePageMetrics url title sessions revenue orderCount).revenuePerVisitor
          = round2 (revenue / sessions) ∧
      (calculatePageMetrics url title sessions revenue orderCount).conversionRate
          = round2 (100 * orderCount / sessions)) ∧
    (sessions = 0 →
      (calculatePageMetrics url title sessions revenue orderCount).revenuePerVisitor = 0 ∧
      (calculatePageMetrics url title sessions revenue orderCount).conversionRate = 0) ∧
    (orderCount > 0 →
      (calculatePageMetrics url title sessions revenue orderCount).aov
          = round2 (revenue / orderCount)) ∧
    (orderCount = 0 →
      (calculatePageMetrics url title sessions revenue orderCount).aov = 0) := by
  refine ⟨fun h => ⟨?_, ?_⟩, fun h => ⟨?_, ?_⟩, fun h => ?_, fun h => ?_⟩
  · simp [calculatePageMetrics, h]
  · simp only [calculatePageMetrics, h, if_pos]
    congr 1
    ring
  · simp [calculatePageMetrics, h, round2_zero]
  · simp [calculatePageMetrics, h, round2_zero]
  · simp [calculatePageMetrics, h]
  · simp [calculatePageMetrics, h, round2_zero]

theorem c1_witness :
    (2 : ℤ) > 0 ∧ (1 : ℤ) > 0 ∧
    (calculatePageMetrics "u" "t" 2 10 1).revenuePerVisitor = 5 ∧
    (calculatePageMetrics "u" "t" 2 10 1).conversionRate = 50 ∧
    (calculatePageMetrics "u" "t" 2 10 1).aov = 10 := by
  have h := c1_calculatePageMetrics_invariants "u" "t" 2 10 1
  refine ⟨by norm_num, by norm_num, ?_, ?_, ?_⟩
  · rw [(h.1 (by norm_num)).1]
    norm_num [round2, jsRound]
  · rw [(h.1 (by norm_num)).2]
    norm_num [round2, jsRound]
  · rw [h.2.2.1 (by norm_num)]
    norm_num [round2, jsRound]

/-- C4 counterexample: the code rounds with Math.round, whose ties go toward
positive infinity, not away from zero.  At revenue -469/200 = -2.345 the
returned totalRevenue is -2.34 while round-half-away-from-zero gives -2.35. -/
theorem c4_counterexample :
    (calculatePageMetrics "u" "t" 0 (-469/200) 0).totalRevenue
      ≠ specRound2 (-469/200) := by
  have hneg : ¬ (0 : ℚ) ≤ -469/200 * 100 := by norm_num
  simp only [calculatePageMetrics, round2, specRound2, jsRound,
    roundHalfAwayFromZero, if_neg hneg]
  norm_num

/-- C4 (amended): each returned field is the exact unrounded quotient/sum,
rounded once at the final step by Math.round to 2 decimals (ties toward
positive infinity); when revenue and orderCount are non-negative this
coincides with round-half-away-from-zero, as the spec states. -/
theorem c4_rounding_once_final (url title : String) (sessions orderCount : ℤ)
    (revenue : ℚ) (hrev : 0 ≤ revenue) (hoc : 0 ≤ orderCount) :
    (calculatePageMetrics url title sessions revenue orderCount).totalRevenue
        = specRound2 revenue ∧
    (calculatePageMetrics url title sessions revenue orderCount).revenuePerVisitor
        = specRound2 (if sessions > 0 then revenue / sessions else 0) ∧
    (calculatePageMetrics url title sessions revenue orderCount).conversionRate
        = specRound2 (if sessions > 0 then (orderCount : ℚ) / sessions * 100 else 0) ∧
    (calculatePageMetrics url title sessions revenue orderCount).aov
        = specRound2 (if orderCount > 0 then revenue / orderCount else 0) := by
  refine ⟨?_, ?_, ?_, ?_⟩
  · exact round2_eq_specRound2_of_nonneg hrev
  · refine round2_eq_specRound2_of_nonneg ?_
    split
    · rename_i h
      exact div_nonneg hrev (by exact_mod_cast le_of_lt h)
    · exact le_refl 0
  · refine round2_eq_specRound2_of_nonneg ?_
    split
    · rename_i h
      have h1 : (0 : ℚ) ≤ (orderCount : ℚ) := by exact_mod_cast hoc
      have h2 : (0 : ℚ) ≤ (sessions : ℚ) := by
        exact_mod_cast le_of_lt h
      positivity
    · exact le_refl 0
  · refine round2_eq_specRound2_of_nonneg ?_
    split
    · rename_i h
      exact div_nonneg hrev (by exact_mod_cast le_of_lt h)
    · exact le_refl 0

theorem c4_rounding_once_final_witness :
    (0 : ℚ) ≤ 10 ∧ (0 : ℤ) ≤ 1 ∧
    (calculatePageMetrics "u" "t" 2 10 1).totalRevenue = specRound2 10 := by
  refine ⟨by norm_num, by norm_num, ?_⟩
  exact (c4_rounding_once_final "u" "t" 2 1 10 (by norm_num) (by norm_num)).1

/-- 'AND' / 'OR' logic of a tag filter (src/types/index.ts). -/
inductive TagFilterLogic where
  | AND
  | OR
deriving Repr, DecidableEq

/-- TagFilter from src/types/index.ts. -/
structure TagFilter where
  tags : List String
  logic : TagFilterLogic
deriving Repr, DecidableEq

/-- Line item of an order (src/types/index.ts); the decimal `price` string is
modelled as an exact rational. -/
structure ShopifyLineItem where
  product_id : ℤ
  title : String
  variant_title : String
  price : ℚ
  quantity : ℤ
deriving Repr, DecidableEq

/-- Order record from src/types/index.ts; `total_price` decimal string as an
exact rational, `tags` the raw comma-joined tag string. -/
structure ShopifyOrder where
  id : ℤ
  total_price : ℚ
  tags : String
  created_at : String
  cancelled_at : Option String
  financial_status : String
  line_items : Option (List ShopifyLineItem)
deriving Repr, DecidableEq

/-- The order's tag set as the code derives it:
`(order.tags || '').split(',').map(t => t.trim().toLowerCase())`. -/
def orderTagList (order : ShopifyOrder) : List String :=
  (jsSplit ',' order.tags).map (fun t => jsToLower (jsTrim t))

/-- `filterOrdersByTags` from src/lib/calculations.ts lines 4-25. -/
def filterOrdersByTags (orders : List ShopifyOrder) (tagFilter : Option TagFilter) :
    List ShopifyOrder :=
  match tagFilter with
  | none => orders
  | some tf =>
    if tf.tags.length = 0 then orders
    else
      orders.filter (fun order =>
        match tf.logic with
        | .AND => tf.tags.all (fun tag => (orderTagList order).contains (jsToLower tag))
        | .OR => tf.tags.any (fun tag => (orderTagList order).contains (jsToLower tag)))

/-- Result of `getProductOrderData`. -/
structure ProductOrderResult where
  matchingOrders : List ShopifyOrder
  totalRevenue : ℚ
deriving Repr, DecidableEq

namespace OrderMatching

/-- Loop body of `getProductOrderData` (bulk order-matching variant,
full-order-total attribution): an order whose line items contain the product
is appended and contributes its full order total. -/
def gpodStep (productId : ℤ) (acc : ProductOrderResult) (order : ShopifyOrder) :
    ProductOrderResult :=
  match order.line_items with
  | none => acc
  | some items =>
    if items.any (fun item => item.product_id == productId) then
      { matchingOrders := acc.matchingOrders ++ [order]
        totalRevenue := acc.totalRevenue + order.total_price }
    else acc

/-- `getProductOrderData` from the bulk order-matching pipeline variant. -/
def getProductOrderData (orders : List ShopifyOrder) (productId : ℤ) :
    ProductOrderResult :=
  orders.foldl (gpodStep productId) { matchingOrders := [], totalRevenue := 0 }

end OrderMatching

namespace Shopify

/-- Rebill-exclusion tag constant from src/lib/shopify.ts line 131. -/
def REBILL_TAG : String := "subscription recurring order"

/-- One order node as returned by the GraphQL orders query in
`fetchOrdersForProduct`: the query requests id, name, totalPriceSet and tags.
`cancelledAt` is the upstream record's cancellation timestamp; the query does
not request it and the code never reads it — it is carried here so claims
about cancelled orders can be stated. -/
structure GraphQLOrderNode where
  name : String
  amount : ℚ
  tags : List String
  cancelledAt : Option String
deriving Repr, DecidableEq

/-- The client-side rebill check of src/lib/shopify.ts lines 213-215:
`tag.toLowerCase().trim() === REBILL_TAG` over the order's tags. -/
def isRebill (node : GraphQLOrderNode) : Bool :=
  node.tags.any (fun tag => jsTrim (jsToLower tag) == REBILL_TAG)

/-- The revenue/count accumulation of `fetchOrdersForProduct` over all fetched
order nodes (src/lib/shopify.ts lines 208-225): skip rebills, otherwise add
the order total and count the order. -/
def fetchOrdersForProductTotals (orders : List GraphQLOrderNode) : ℚ × ℕ :=
  orders.foldl
    (fun acc order => if isRebill order then acc else (acc.1 + order.amount, acc.2 + 1))
    (0, 0)

/-- Returned record of `fetchOrdersForProduct`. -/
structure ProductOrderData where
  orderCount : ℕ
  totalRevenue : ℚ
deriving Repr, DecidableEq

/-- `fetchOrdersForProduct` final result (src/lib/shopify.ts line 244):
the accumulated totals with the revenue rounded to 2 decimals. -/
def fetchOrdersForProduct (orders : List GraphQLOrderNode) : ProductOrderData :=
  { orderCount := (fetchOrdersForProductTotals orders).2
    totalRevenue := round2 (fetchOrdersForProductTotals orders).1 }

end Shopify

/-- Replace the cancellation timestamp of a GraphQL order node. -/
def setCancelledNode (t : Option String) (o : Shopify.GraphQLOrderNode) :
    Shopify.GraphQLOrderNode :=
  { o with cancelledAt := t }

/-- Replace the cancellation timestamp of a bulk order record. -/
def setCancelledOrder (t : Option String) (o : ShopifyOrder) : ShopifyOrder :=
  { o with cancelled_at := t }

theorem fetchOrdersForProductTotals_map_cancel (t : Option String)
    (orders : List Shopify.GraphQLOrderNode) :
    Shopify.fetchOrdersForProductTotals (orders.map (setCancelledNode t))
      = Shopify.fetchOrdersForProductTotals orders := by
  unfold Shopify.fetchOrdersForProductTotals
  rw [List.foldl_map]
  congr 1

theorem gpod_loop_cancel (pid : ℤ) (t : Option String) (bulk : List ShopifyOrder) :
    ∀ acc1 acc2 : ProductOrderResult,
      acc1.matchingOrders.length = acc2.matchingOrders.length →
      acc1.totalRevenue = acc2.totalRevenue →
      ((bulk.map (setCancelledOrder t)).foldl (OrderMatching.gpodStep pid) acc1).matchingOrders.length
          = (bulk.foldl (OrderMatching.gpodStep pid) acc2).matchingOrders.length ∧
      ((bulk.map (setCancelledOrder t)).foldl (OrderMatching.gpodStep pid) acc1).totalRevenue
          = (bulk.foldl (OrderMatching.gpodStep pid) acc2).totalRevenue := by
  induction bulk with
  | nil =>
    intro acc1 acc2 hlen hrev
    exact ⟨hlen, hrev⟩
  | cons o rest ih =>
    intro acc1 acc2 hlen hrev
    simp only [List.map_cons, List.foldl_cons]
    apply ih
    · unfold OrderMatching.gpodStep setCancelledOrder
      cases h : o.line_items with
      | none => simpa [h] using hlen
      | some items =>
        by_cases hc : items.any (fun item => item.product_id == pid) = true
        · simp [h, hc, hlen]
        · simp [h, hc, hlen]
    · unfold OrderMatching.gpodStep setCancelledOrder
      cases h : o.line_items with
      | none => simpa [h] using hrev
      | some items =>
        by_cases hc : items.any (fun item => item.product_id == pid) = true
        · simp [h, hc, hrev]
        · simp [h, hc, hrev]

/-- A concrete cancelled order node: non-null cancellation timestamp, no
rebill tag, order total 10. -/
def cancelledNode : Shopify.GraphQLOrderNode :=
  { name := "#1001"
    amount := 10
    tags := ["web"]
    cancelledAt := some "2024-02-01T00:00:00Z" }

/-- A concrete cancelled bulk order containing product 7. -/
def cancelledOrder : ShopifyOrder :=
  { id := 1001
    total_price := 10
    tags := ""
    created_at := "2024-01-15T00:00:00Z"
    cancelled_at := some "2024-02-01T00:00:00Z"
    financial_status := "refunded"
    line_items := some [{ product_id := 7, title := "Freedom Joint Drops",
                          variant_title := "", price := 10, quantity := 1 }] }

/-- C3 counterexample: an order with a non-null cancellation timestamp is
still counted and still contributes its revenue, in both the per-product
fetch path and the bulk order-matching path — neither reads cancelled_at. -/
theorem c3_counterexample :
    cancelledNode.cancelledAt ≠ none ∧
    (Shopify.fetchOrdersForProduct [cancelledNode]).orderCount = 1 ∧
    (Shopify.fetchOrdersForProduct [cancelledNode]).totalRevenue = 10 ∧
    cancelledOrder.cancelled_at ≠ none ∧
    (OrderMatching.getProductOrderData [cancelledOrder] 7).matchingOrders.length = 1 ∧
    (OrderMatching.getProductOrderData [cancelledOrder] 7).totalRevenue = 10 := by
  have hr : Shopify.isRebill cancelledNode = false := by decide
  have hm : (cancelledOrder.line_items.getD []).any (fun item => item.product_id == 7)
      = true := by decide
  refine ⟨by simp [cancelledNode], ?_, ?_, by simp [cancelledOrder], ?_, ?_⟩
  · simp [Shopify.fetchOrdersForProduct, Shopify.fetchOrdersForProductTotals, hr]
  · simp only [Shopify.fetchOrdersForProduct, Shopify.fetchOrdersForProductTotals,
      List.foldl_cons, List.foldl_nil, hr, Bool.false_eq_true, if_false]
    norm_num [round2, jsRound, cancelledNode]
  · simp [OrderMatching.getProductOrderData, OrderMatching.gpodStep, cancelledOrder]
  · simp [OrderMatching.getProductOrderData, OrderMatching.gpodStep, cancelledOrder]

/-- C3 (amended): cancellation status is ignored — changing any order's
cancellation timestamp changes neither the order count nor the revenue
produced by fetchOrdersForProduct or by getProductOrderData; cancelled
orders contribute exactly as uncancelled ones. -/
theorem c3_cancellation_ignored (orders : List Shopify.GraphQLOrderNode)
    (bulk : List ShopifyOrder) (productId : ℤ) (t : Option String) :
    Shopify.fetchOrdersForProduct (orders.map (setCancelledNode t))
        = Shopify.fetchOrdersForProduct orders ∧
    (OrderMatching.getProductOrderData (bulk.map (setCancelledOrder t))
        productId).matchingOrders.length
      = (OrderMatching.getProductOrderData bulk productId).matchingOrders.length ∧
    (OrderMatching.getProductOrderData (bulk.map (setCancelledOrder t))
        productId).totalRevenue
      = (OrderMatching.getProductOrderData bulk productId).totalRevenue := by
  refine ⟨?_, ?_, ?_⟩
  · unfold Shopify.fetchOrdersForProduct
    rw [fetchOrdersForProductTotals_map_cancel]
  · exact (gpod_loop_cancel productId t bulk _ _ rfl rfl).1
  · exact (gpod_loop_cancel productId t bulk _ _ rfl rfl).2

/-- C6: every order carrying a tag equal to "Subscription Recurring Order"
after case-folding and trimming is excluded from both the returned orderCount
and the returned totalRevenue of fetchOrdersForProduct. -/
theorem c6_rebill_excluded (l1 l2 : List Shopify.GraphQLOrderNode)
    (o : Shopify.GraphQLOrderNode)
    (h : ∃ tag ∈ o.tags, jsTrim (jsToLower tag) = Shopify.REBILL_TAG) :
    Shopify.fetchOrdersForProduct (l1 ++ o :: l2)
      = Shopify.fetchOrdersForProduct (l1 ++ l2) := by
  have hreb : Shopify.isRebill o = true := by
    rcases h with ⟨tag, htag, heq⟩
    simp only [Shopify.isRebill, List.any_eq_true]
    exact ⟨tag, htag, by simp [heq]⟩
  simp [Shopify.fetchOrdersForProduct, Shopify.fetchOrdersForProductTotals,
    List.foldl_append, hreb]

theorem c6_witness :
    (∃ tag ∈ (Shopify.GraphQLOrderNode.mk "#1" 10
        [" Subscription Recurring ORDER "] none).tags,
      jsTrim (jsToLower tag) = Shopify.REBILL_TAG) ∧
    Shopify.fetchOrdersForProduct
        [Shopify.GraphQLOrderNode.mk "#1" 10 [" Subscription Recurring ORDER "] none]
      = Shopify.fetchOrdersForProduct [] := by
  refine ⟨?_, c6_rebill_excluded [] [] _ ?_⟩ <;>
    exact ⟨" Subscription Recurring ORDER ", by simp, by decide⟩

/-- A concrete order tagged only "vip". -/
def vipOrder : ShopifyOrder :=
  { id := 1
    total_price := 100
    tags := "vip"
    created_at := "2024-01-01T00:00:00Z"
    cancelled_at := none
    financial_status := "paid"
    line_items := none }

/-- C7: filterOrdersByTags retains an order under AND-logic exactly when
every filter tag (lower-cased) is present in the order's comma-split,
trimmed, lower-cased tag set, and under OR-logic exactly when at least one
is; with filter tags vip and sale, an order tagged only vip is excluded
under AND and included under OR.  An empty tag list deactivates the filter. -/
theorem c7_filterOrdersByTags (orders : List ShopifyOrder) (tf : TagFilter)
    (order : ShopifyOrder) (htf : tf.tags ≠ []) :
    (order ∈ filterOrdersByTags orders (some tf) ↔
      order ∈ orders ∧
        ((tf.logic = TagFilterLogic.AND →
            ∀ tag ∈ tf.tags, jsToLower tag ∈ orderTagList order) ∧
         (tf.logic = TagFilterLogic.OR →
            ∃ tag ∈ tf.tags, jsToLower tag ∈ orderTagList order))) ∧
    filterOrdersByTags [vipOrder] (some ⟨["vip", "sale"], TagFilterLogic.AND⟩) = [] ∧
    filterOrdersByTags [vipOrder] (some ⟨["vip", "sale"], TagFilterLogic.OR⟩)
      = [vipOrder] := by
  refine ⟨?_, ?_, ?_⟩
  · rw [filterOrdersByTags]
    rw [if_neg (by simpa using htf)]
    cases hl : tf.logic with
    | AND => simp [List.mem_filter, hl]
    | OR => simp [List.mem_filter, hl]
  · decide
  · decide

theorem c7_witness :
    (["vip", "sale"] : List String) ≠ [] ∧
    vipOrder ∈ filterOrdersByTags [vipOrder]
      (some ⟨["vip", "sale"], TagFilterLogic.OR⟩) := by
  refine ⟨by simp, ?_⟩
  refine (c7_filterOrdersByTags [vipOrder] ⟨["vip", "sale"], TagFilterLogic.OR⟩
      vipOrder (by simp)).1.mpr ?_
  exact ⟨by simp, ⟨fun h => absurd h (by decide), fun _ => ⟨"vip", by simp, by decide⟩⟩⟩

/-- Association-list model of the JS `Map<string, number>` used by
`fetchSessionsByLandingPage`: `set` replaces an existing key in place or
appends, `get` returns the value of the first matching key. -/
def mapSet : List (String × ℕ) → String → ℕ → List (String × ℕ)
  | [], key, v => [(key, v)]
  | (k, w) :: rest, key, v =>
    if k = key then (key, v) :: rest else (k, w) :: mapSet rest key v

/-- JS `Map.get`: value stored at a key, if present. -/
def mapGet : List (String × ℕ) → String → Option ℕ
  | [], _ => none
  | (k, v) :: rest, key => if k = key then some v else mapGet rest key

theorem mapGet_mapSet (m : List (String × ℕ)) (k p : String) (v : ℕ) :
    mapGet (mapSet m k v) p = if k = p then some v else mapGet m p := by
  induction m with
  | nil => simp [mapSet, mapGet]
  | cons hd rest ih =>
    obtain ⟨k2, w⟩ := hd
    by_cases h1 : k2 = k
    · subst h1
      by_cases h2 : k2 = p <;> simp [mapSet, mapGet, h2]
    · by_cases h2 : k2 = p
      · subst h2
        simp [mapSet, mapGet, h1, Ne.symm h1]
      · simp [mapSet, mapGet, h1, h2, ih]

namespace Shopify

/-- One row of the ShopifyQL sessions result.  `sessions` is the
`parseInt(String(row.sessions || '0'), 10)` result; `none` models an
unparseable value (NaN), which the code counts as 0. -/
structure QLRow where
  landing_page_path : String
  sessions : Option ℕ
deriving Repr, DecidableEq

/-- The three-way trailing-slash comparison of src/lib/shopify.ts lines
342-346 (both arguments already lower-cased at the call site). -/
def pathMatches (landingPath normalizedTarget : String) : Bool :=
  landingPath == normalizedTarget ||
  landingPath == normalizedTarget ++ "/" ||
  landingPath ++ "/" == normalizedTarget

/-- The initial session map: every requested path set to 0
(src/lib/shopify.ts lines 260-264). -/
def initSessionMap (urlPaths : List String) : List (String × ℕ) :=
  urlPaths.foldl (fun m p => mapSet m p 0) []

/-- Body of the inner target loop (src/lib/shopify.ts lines 339-351): when
the lower-cased row path matches the lower-cased target, add the row's
session count onto the map entry. -/
def sessionStep (row : QLRow) (m : List (String × ℕ)) (targetPath : String) :
    List (String × ℕ) :=
  if pathMatches (jsToLower row.landing_page_path) (jsToLower targetPath) then
    mapSet m targetPath ((mapGet m targetPath).getD 0 + row.sessions.getD 0)
  else m

/-- Process one returned row against every requested path. -/
def applyRow (urlPaths : List String) (m : List (String × ℕ)) (row : QLRow) :
    List (String × ℕ) :=
  urlPaths.foldl (sessionStep row) m

/-- Result variants of the ShopifyQL query: every branch except `rows`
returns the zero-initialised map (HTTP error, GraphQL errors, parse errors,
thrown transport error — src/lib/shopify.ts lines 303-321 and 358-360). -/
inductive QLOutcome where
  | httpError (status : ℕ)
  | graphqlErrors
  | parseErrors
  | transportError
  | rows (rows : List QLRow)

/-- `fetchSessionsByLandingPage` from src/lib/shopify.ts lines 254-364:
initialise all requested paths to 0, then on a successful query fold every
returned row over every requested path; on any failure return the
initialised map unchanged. -/
def fetchSessionsByLandingPage (urlPaths : List String) (outcome : QLOutcome) :
    List (String × ℕ) :=
  match outcome with
  | .rows rows => rows.foldl (applyRow urlPaths) (initSessionMap urlPaths)
  | _ => initSessionMap urlPaths

/-- Contribution of a single row to a single requested path. -/
def rowContribution (target : String) (row : QLRow) : ℕ :=
  if pathMatches (jsToLower row.landing_page_path) (jsToLower target) then
    row.sessions.getD 0
  else 0

/-- Sum of all matching rows' session counts for one requested path. -/
def matchingSum (rows : List QLRow) (target : String) : ℕ :=
  (rows.map (rowContribution target)).sum

theorem mapGet_initSessionMap (urlPaths : List String) (p : String) :
    mapGet (initSessionMap urlPaths) p = if p ∈ urlPaths then some 0 else none := by
  have general : ∀ (l : List String) (m : List (String × ℕ)),
      mapGet (l.foldl (fun m q => mapSet m q 0) m) p
        = if p ∈ l then some 0 else mapGet m p := by
    intro l
    induction l with
    | nil => intro m; simp
    | cons q rest ih =>
      intro m
      by_cases hq : q = p
      · subst hq
        by_cases hp : q ∈ rest <;> simp [ih, mapGet_mapSet, hp]
      · simp [ih, mapGet_mapSet, hq, Ne.symm hq]
  simpa [initSessionMap, mapGet] using general urlPaths []

theorem mapGet_sessionStep_ne (row : QLRow) (m : List (String × ℕ))
    (t p : String) (h : t ≠ p) :
    mapGet (sessionStep row m t) p = mapGet m p := by
  unfold sessionStep
  split
  · rw [mapGet_mapSet, if_neg h]
  · rfl

theorem mapGet_applyRow_not_mem (row : QLRow) (ts : List String) (p : String)
    (hp : p ∉ ts) : ∀ m, mapGet (ts.foldl (sessionStep row) m) p = mapGet m p := by
  induction ts with
  | nil => intro m; rfl
  | cons t rest ih =>
    intro m
    have h1 : t ≠ p := fun h => hp (h ▸ List.mem_cons_self t rest)
    have h2 : p ∉ rest := fun h => hp (List.mem_cons_of_mem t h)
    simp only [List.foldl_cons]
    rw [ih h2, mapGet_sessionStep_ne row m t p h1]

theorem mapGet_applyRow (row : QLRow) (ts : List String) (hnd : ts.Nodup)
    (p : String) (hp : p ∈ ts) :
    ∀ (m : List (String × ℕ)) (v : ℕ), mapGet m p = some v →
      mapGet (ts.foldl (sessionStep row) m) p = some (v + rowContribution p row) := by
  induction ts with
  | nil => cases hp
  | cons t rest ih =>
    intro m v hv
    simp only [List.foldl_cons]
    by_cases hq : t = p
    · subst hq
      have hrest : t ∉ rest := (List.nodup_cons.mp hnd).1
      rw [mapGet_applyRow_not_mem row rest t hrest]
      unfold sessionStep rowContribution
      split
      · rw [mapGet_mapSet, if_pos rfl, hv]
        rfl
      · rw [hv]
        rfl
    · have hrest : p ∈ rest := by
        rcases List.mem_cons.mp hp with h | h
        · exact absurd h.symm hq
        · exact h
      have hv2 : mapGet (sessionStep row m t) p = some v := by
        rw [mapGet_sessionStep_ne row m t p hq, hv]
      exact ih (List.nodup_cons.mp hnd).2 hrest _ v hv2

theorem mapGet_foldRows (urlPaths : List String) (hnd : urlPaths.Nodup)
    (p : String) (hp : p ∈ urlPaths) (rows : List QLRow) :
    ∀ (m : List (String × ℕ)) (v : ℕ), mapGet m p = some v →
      mapGet (rows.foldl (applyRow urlPaths) m) p = some (v + matchingSum rows p) := by
  induction rows with
  | nil =>
    intro m v hv
    simpa [matchingSum] using hv
  | cons r rest ih =>
    intro m v hv
    simp only [List.foldl_cons]
    have h1 : mapGet (applyRow urlPaths m r) p = some (v + rowContribution p r) :=
      mapGet_applyRow r urlPaths hnd p hp m v hv
    rw [ih _ _ h1]
    simp [matchingSum, Nat.add_assoc]

theorem mapGet_sessionStep_isSome (row : QLRow) (m : List (String × ℕ))
    (t : String) (ht : (mapGet m t).isSome) (p : String) :
    (mapGet (sessionStep row m t) p).isSome = (mapGet m p).isSome := by
  unfold sessionStep
  split
  · rw [mapGet_mapSet]
    by_cases h : t = p
    · subst h
      simp [Option.isSome_iff_exists] at ht ⊢
      exact ht
    · rw [if_neg h]
  · rfl

theorem foldl_sessionStep_isSome (row : QLRow) :
    ∀ (ts : List String) (m : List (String × ℕ)),
      (∀ q ∈ ts, (mapGet m q).isSome) →
      ∀ p, (mapGet (ts.foldl (sessionStep row) m) p).isSome = (mapGet m p).isSome := by
  intro ts
  induction ts with
  | nil => intro m _ p; rfl
  | cons t rest ih =>
    intro m hsome p
    have ht : (mapGet m t).isSome := hsome t (List.mem_cons_self t rest)
    have hstep : ∀ q, (mapGet (sessionStep row m t) q).isSome = (mapGet m q).isSome :=
      fun q => mapGet_sessionStep_isSome row m t ht q
    have hrest : ∀ q ∈ rest, (mapGet (sessionStep row m t) q).isSome := by
      intro q hq
      rw [hstep q]
      exact hsome q (List.mem_cons_of_mem t hq)
    simp only [List.foldl_cons]
    rw [ih _ hrest p, hstep p]

theorem foldRows_isSome (urlPaths : List String) :
    ∀ (rows : List QLRow) (m : List (String × ℕ)),
      (∀ q ∈ urlPaths, (mapGet m q).isSome) →
      ∀ p, (mapGet (rows.foldl (applyRow urlPaths) m) p).isSome = (mapGet m p).isSome := by
  intro rows
  induction rows with
  | nil => intro m _ p; rfl
  | cons r rest ih =>
    intro m hsome p
    have hstep : ∀ q, (mapGet (applyRow urlPaths m r) q).isSome = (mapGet m q).isSome :=
      foldl_sessionStep_isSome r urlPaths m hsome
    have hrest : ∀ q ∈ urlPaths, (mapGet (applyRow urlPaths m r) q).isSome := by
      intro q hq
      rw [hstep q]
      exact hsome q hq
    simp only [List.foldl_cons]
    rw [ih _ hrest p, hstep p]

end Shopify

/-- C5 counterexample: with the same path requested twice, a single matching
row with 5 sessions is accumulated once per occurrence, so the map reports
10 while the sum over all matching rows is 5. -/
theorem c5_counterexample :
    mapGet (Shopify.fetchSessionsByLandingPage ["/a", "/a"]
        (Shopify.QLOutcome.rows [⟨"/a", some 5⟩])) "/a" = some 10 ∧
    Shopify.matchingSum [⟨"/a", some 5⟩] "/a" = 5 := by
  decide

/-- C5 (amended): a row is accepted for a requested path exactly when, after
lower-casing both, the row path equals the target, or equals the target plus
a trailing slash, or the target equals the row path plus a trailing slash;
for pairwise distinct requested paths each path's final count is the sum of
all matching rows' session counts (a path occurring k times accumulates each
matching row k times). -/
theorem c5_path_matching (urlPaths : List String) (hnd : urlPaths.Nodup)
    (rows : List Shopify.QLRow) (p : String) (hp : p ∈ urlPaths) :
    mapGet (Shopify.fetchSessionsByLandingPage urlPaths
        (Shopify.QLOutcome.rows rows)) p = some (Shopify.matchingSum rows p) ∧
    (∀ landingPath target : String,
        Shopify.pathMatches landingPath target = true ↔
          (landingPath = target ∨ landingPath = target ++ "/" ∨
            landingPath ++ "/" = target)) ∧
    Shopify.pathMatches "/products/foo/" "/products/foo" = true ∧
    Shopify.pathMatches "/products/foo" "/products/foo/" = true ∧
    Shopify.pathMatches "/products/foobar" "/products/foo" = false ∧
    Shopify.pathMatches "/products/foo" "/products/foobar" = false := by
  refine ⟨?_, ?_, by decide, by decide, by decide, by decide⟩
  · have h0 : mapGet (Shopify.initSessionMap urlPaths) p = some 0 := by
      rw [Shopify.mapGet_initSessionMap, if_pos hp]
    have h := Shopify.mapGet_foldRows urlPaths hnd p hp rows _ 0 h0
    simpa [Shopify.fetchSessionsByLandingPage] using h
  · intro l t
    simp [Shopify.pathMatches, or_assoc]

theorem c5_witness :
    (["/products/foo"] : List String).Nodup ∧
    "/products/foo" ∈ (["/products/foo"] : List String) ∧
    mapGet (Shopify.fetchSessionsByLandingPage ["/products/foo"]
        (Shopify.QLOutcome.rows [⟨"/products/foo/", some 7⟩])) "/products/foo"
      = some (Shopify.matchingSum [⟨"/products/foo/", some 7⟩] "/products/foo") ∧
    Shopify.matchingSum [⟨"/products/foo/", some 7⟩] "/products/foo" = 7 := by
  refine ⟨by decide, by decide, ?_, by decide⟩
  exact (c5_path_matching ["/products/foo"] (by decide)
    [⟨"/products/foo/", some 7⟩] "/products/foo" (by decide)).1

/-- C10: the session map has exactly the requested paths as keys; every
failure branch (HTTP error, GraphQL errors, ShopifyQL parse errors, thrown
transport error) and the empty result return the zero-initialised map, in
which every requested path is present with count 0 — so zero sessions and
no data are indistinguishable to the caller. -/
theorem c10_sessions_map_covers_requests (urlPaths : List String)
    (outcome : Shopify.QLOutcome) :
    (∀ p, (mapGet (Shopify.fetchSessionsByLandingPage urlPaths outcome) p).isSome
        ↔ p ∈ urlPaths) ∧
    (∀ s, Shopify.fetchSessionsByLandingPage urlPaths (Shopify.QLOutcome.httpError s)
        = Shopify.initSessionMap urlPaths) ∧
    Shopify.fetchSessionsByLandingPage urlPaths Shopify.QLOutcome.graphqlErrors
        = Shopify.initSessionMap urlPaths ∧
    Shopify.fetchSessionsByLandingPage urlPaths Shopify.QLOutcome.parseErrors
        = Shopify.initSessionMap urlPaths ∧
    Shopify.fetchSessionsByLandingPage urlPaths Shopify.QLOutcome.transportError
        = Shopify.initSessionMap urlPaths ∧
    Shopify.fetchSessionsByLandingPage urlPaths (Shopify.QLOutcome.rows [])
        = Shopify.initSessionMap urlPaths ∧
    (∀ p ∈ urlPaths, mapGet (Shopify.initSessionMap urlPaths) p = some 0) := by
  have hinit : ∀ p, (mapGet (Shopify.initSessionMap urlPaths) p).isSome ↔ p ∈ urlPaths := by
    intro p
    rw [Shopify.mapGet_initSessionMap]
    by_cases hp : p ∈ urlPaths <;> simp [hp]
  have hinitSome : ∀ q ∈ urlPaths, (mapGet (Shopify.initSessionMap urlPaths) q).isSome :=
    fun q hq => (hinit q).mpr hq
  refine ⟨?_, fun s => rfl, rfl, rfl, rfl, rfl, ?_⟩
  · intro p
    cases outcome with
    | rows rows =>
      rw [show Shopify.fetchSessionsByLandingPage urlPaths (Shopify.QLOutcome.rows rows)
          = rows.foldl (Shopify.applyRow urlPaths) (Shopify.initSessionMap urlPaths) from rfl]
      rw [Shopify.foldRows_isSome urlPaths rows _ hinitSome p]
      exact hinit p
    | httpError s => exact hinit p
    | graphqlErrors => exact hinit p
    | parseErrors => exact hinit p
    | transportError => exact hinit p
  · intro p hp
    rw [Shopify.mapGet_initSessionMap, if_pos hp]

theorem c10_witness :
    "/x" ∈ (["/x"] : List String) ∧
    mapGet (Shopify.initSessionMap ["/x"]) "/x" = some 0 ∧
    (mapGet (Shopify.fetchSessionsByLandingPage ["/x"]
        (Shopify.QLOutcome.rows [])) "/x").isSome := by
  have h := c10_sessions_map_covers_requests ["/x"] (Shopify.QLOutcome.rows [])
  exact ⟨by decide, h.2.2.2.2.2.2 "/x" (by decide), (h.1 "/x").mpr (by decide)⟩

namespace Cache

/-- JSON values as passed to `JSON.stringify` by `generateCacheKey`
(strings, arrays, objects cover every request parameter shape). -/
inductive Json where
  | str (v : String)
  | arr (elems : List Json)
  | obj (fields : List (String × Json))
deriving Repr

/-- Quote a JSON string (the request fields contain no characters needing
escapes). -/
def jsonQuote (s : String) : String := "\"" ++ s ++ "\""

/-- Property lookup in a serialized object's field list. -/
def keyLookup (k : String) : List (String × Json) → Option Json
  | [] => none
  | (k2, v) :: rest => if k2 = k then some v else keyLookup k rest

theorem keyLookup_sizeOf {k : String} {v : Json} :
    ∀ {fs : List (String × Json)}, keyLookup k fs = some v → sizeOf v < sizeOf fs := by
  intro fs
  induction fs with
  | nil =>
    intro h
    simp [keyLookup] at h
  | cons hd rest ih =>
    obtain ⟨k2, v2⟩ := hd
    intro h
    by_cases hk : k2 = k
    · simp [keyLookup, hk] at h
      subst h
      simp
      omega
    · simp [keyLookup, hk] at h
      have := ih h
      simp
      omega

/-- ECMA-262 `JSON.stringify(value, replacerArray)`: when the replacer is an
array, it becomes the PropertyList — at EVERY object level only the listed
keys are serialized, in list order; array elements are serialized
unconditionally. -/
def serializeJson (ks : List String) (j : Json) : String :=
  match j with
  | .str v => jsonQuote v
  | .arr es =>
    "[" ++ String.intercalate "," (es.attach.map (fun e => serializeJson ks e.1)) ++ "]"
  | .obj fs =>
    "\x7b" ++ String.intercalate ","
      (ks.filterMap (fun k =>
        match hkl : keyLookup k fs with
        | some v => some (jsonQuote k ++ ":" ++ serializeJson ks v)
        | none => none)) ++ "\x7d"
termination_by sizeOf j
decreasing_by
  · have hm := List.sizeOf_lt_of_mem e.2
    simp
    omega
  · have := keyLookup_sizeOf hkl
    simp
    omega

/-- Insert a string into a sorted list (used to model `Array.sort()` on the
ASCII parameter keys). -/
def insertSorted (s : String) : List String → List String
  | [] => [s]
  | t :: ts => if s ≤ t then s :: t :: ts else t :: insertSorted s ts

/-- `Object.keys(params).sort()`: the parameter keys in ascending order. -/
def sortStrings (l : List String) : List String := l.foldr insertSorted []

/-- `generateCacheKey` from src/lib/cache.ts:
`md5hex(JSON.stringify(params, Object.keys(params).sort()))`.  The md5 hex
digest is abstracted as a function parameter; equal serializations give
equal keys. -/
def generateCacheKey (md5Hex : String → String) (params : List (String × Json)) :
    String :=
  md5Hex (serializeJson (sortStrings (params.map Prod.fst)) (Json.obj params))

/-- The analytics route's cache-key input
`{ urls, dateRange }` (src/app/api/shopify/analytics/route.ts line 59; an
undefined `tagFilter` property serializes identically to an absent one). -/
def analyticsRequestJson (urls : List String) (startDate endDate : String) :
    List (String × Json) :=
  [("urls", Json.arr (urls.map Json.str)),
   ("dateRange", Json.obj [("start", Json.str startDate), ("end", Json.str endDate)])]

end Cache

/-- C2: the array replacer passed to JSON.stringify filters keys at every
nesting level, so the nested dateRange keys "start"/"end" are dropped from
the serialization: two requests over the same URLs but different date ranges
serialize identically — hence hash to the same cache key — contradicting
the claim that requests differing in their date range get different keys. -/
theorem c2_cache_key_collision :
    ∀ md5Hex : String → String,
      "2024-01-01" ≠ "2023-06-01" ∧
      Cache.serializeJson
          (Cache.sortStrings ((Cache.analyticsRequestJson ["/products/a"]
            "2024-01-01" "2024-01-31").map Prod.fst))
          (Cache.Json.obj (Cache.analyticsRequestJson ["/products/a"]
            "2024-01-01" "2024-01-31"))
        = "\x7b\"dateRange\":\x7b\x7d,\"urls\":[\"/products/a\"]\x7d" ∧
      Cache.generateCacheKey md5Hex
          (Cache.analyticsRequestJson ["/products/a"] "2024-01-01" "2024-01-31")
        = Cache.generateCacheKey md5Hex
          (Cache.analyticsRequestJson ["/products/a"] "2023-06-01" "2023-06-30") := by
  intro md5Hex
  have h1 : Cache.serializeJson
      (Cache.sortStrings ((Cache.analyticsRequestJson ["/products/a"]
        "2024-01-01" "2024-01-31").map Prod.fst))
      (Cache.Json.obj (Cache.analyticsRequestJson ["/products/a"]
        "2024-01-01" "2024-01-31"))
      = "\x7b\"dateRange\":\x7b\x7d,\"urls\":[\"/products/a\"]\x7d" := by
    have hle : ¬ ((['u', 'r', 'l', 's'] : List Char)
        ≤ ['d', 'a', 't', 'e', 'R', 'a', 'n', 'g', 'e']) := by decide
    simp [Cache.analyticsRequestJson, Cache.sortStrings, Cache.insertSorted,
      Cache.serializeJson, Cache.keyLookup, Cache.jsonQuote, hle,
      String.intercalate, String.intercalate.go]
  have h2 : Cache.serializeJson
      (Cache.sortStrings ((Cache.analyticsRequestJson ["/products/a"]
        "2023-06-01" "2023-06-30").map Prod.fst))
      (Cache.Json.obj (Cache.analyticsRequestJson ["/products/a"]
        "2023-06-01" "2023-06-30"))
      = "\x7b\"dateRange\":\x7b\x7d,\"urls\":[\"/products/a\"]\x7d" := by
    have hle : ¬ ((['u', 'r', 'l', 's'] : List Char)
        ≤ ['d', 'a', 't', 'e', 'R', 'a', 'n', 'g', 'e']) := by decide
    simp [Cache.analyticsRequestJson, Cache.sortStrings, Cache.insertSorted,
      Cache.serializeJson, Cache.keyLookup, Cache.jsonQuote, hle,
      String.intercalate, String.intercalate.go]
  refine ⟨by decide, h1, ?_⟩
  unfold Cache.generateCacheKey
  rw [h1, h2]

/-- JS falsiness of an optional string (absent, or the empty string). -/
def falsyStr (o : Option String) : Bool :=
  match o with
  | none => true
  | some s => s == ""

namespace AnalyticsRoute

/-- Shop session as consumed by the route. -/
structure SessionInfo where
  shop : String
  accessToken : String
  shopId : String
deriving Repr, DecidableEq

/-- The request body's dateRange object; `endD` models the JSON field
"end" (a Lean keyword).  Fields are optional to model absent JSON keys. -/
structure DateRangeJson where
  start : Option String
  endD : Option String
deriving Repr, DecidableEq

/-- Parsed POST body: urls / dateRange may be absent. -/
structure RequestBody where
  urls : Option (List String)
  dateRange : Option DateRangeJson
  refresh : Bool
deriving Repr, DecidableEq

/-- Outcome of the cache lookup stage. -/
inductive CacheLookup where
  | hit
  | miss
  | errored
deriving Repr, DecidableEq

/-- HTTP status produced by the POST /api/shopify/analytics handler
(src/app/api/shopify/analytics/route.ts lines 25-194), as a function of the
session lookup outcome, the parsed body, and the downstream stage outcomes:
session lookup failure → 500; no session → 401 before any other work; a
body missing `urls` or missing `dateRange` throws a TypeError in the
pre-validation log line (line 48) and falls into the outer catch → 500;
empty urls → 400; present-but-incomplete dateRange → 400; cache hit (when
refresh is false) → 200; product-resolution failure → 504; ShopifyQL/revenue
stage failure → 504; otherwise 200. -/
def analyticsPOST (sessionLookup : Except Unit (Option SessionInfo))
    (body : Option RequestBody) (cacheLookup : CacheLookup)
    (resolveFails : Bool) (fetchFails : Bool) : ℕ :=
  match sessionLookup with
  | .error _ => 500
  | .ok none => 401
  | .ok (some _) =>
    match body with
    | none => 500
    | some b =>
      match b.urls, b.dateRange with
      | none, _ => 500
      | _, none => 500
      | some urls, some dr =>
        if urls.length = 0 then 400
        else if falsyStr dr.start || falsyStr dr.endD then 400
        else
          match (if b.refresh then CacheLookup.miss else cacheLookup) with
          | .hit => 200
          | _ =>
            if resolveFails then 504
            else if fetchFails then 504
            else 200

end AnalyticsRoute

/-- C8 counterexample: a request with the urls field missing entirely is
answered 500, not 400 — the handler logs `urls.length` before validating,
and the TypeError lands in the generic catch. -/
theorem c8_counterexample :
    AnalyticsRoute.analyticsPOST
        (Except.ok (some ⟨"x.myshopify.com", "token", "shop_1"⟩))
        (some { urls := none,
                dateRange := some ⟨some "2024-01-01", some "2024-01-31"⟩,
                refresh := false })
        AnalyticsRoute.CacheLookup.miss false false = 500 ∧
    AnalyticsRoute.analyticsPOST
        (Except.ok (some ⟨"x.myshopify.com", "token", "shop_1"⟩))
        (some { urls := some ["/products/a"], dateRange := none, refresh := false })
        AnalyticsRoute.CacheLookup.miss false false = 500 ∧
    (500 : ℕ) ≠ 400 := by
  exact ⟨rfl, rfl, by decide⟩

/-- C8 (amended): 401 whenever the session is missing, decided before the
body is even parsed; 400 for a present-but-empty urls list and for a
present-but-incomplete dateRange; 500 (not 400) when urls or dateRange is
absent entirely; 504 when the resolve stage or the fetch stage fails; 500
when the session lookup itself fails or the body cannot be parsed. -/
theorem c8_status_codes :
    (∀ (body : Option AnalyticsRoute.RequestBody)
        (cache : AnalyticsRoute.CacheLookup) (r f : Bool),
      AnalyticsRoute.analyticsPOST (Except.ok none) body cache r f = 401) ∧
    (∀ (s : AnalyticsRoute.SessionInfo) (dr : AnalyticsRoute.DateRangeJson)
        (refresh : Bool) (cache : AnalyticsRoute.CacheLookup) (r f : Bool),
      AnalyticsRoute.analyticsPOST (Except.ok (some s))
          (some ⟨some [], some dr, refresh⟩) cache r f = 400) ∧
    (∀ (s : AnalyticsRoute.SessionInfo) (urls : List String)
        (dr : AnalyticsRoute.DateRangeJson) (refresh : Bool)
        (cache : AnalyticsRoute.CacheLookup) (r f : Bool),
      urls ≠ [] → (falsyStr dr.start || falsyStr dr.endD) = true →
      AnalyticsRoute.analyticsPOST (Except.ok (some s))
          (some ⟨some urls, some dr, refresh⟩) cache r f = 400) ∧
    (∀ (s : AnalyticsRoute.SessionInfo) (dr : Option AnalyticsRoute.DateRangeJson)
        (refresh : Bool) (cache : AnalyticsRoute.CacheLookup) (r f : Bool),
      AnalyticsRoute.analyticsPOST (Except.ok (some s))
          (some ⟨none, dr, refresh⟩) cache r f = 500) ∧
    (∀ (s : AnalyticsRoute.SessionInfo) (urls : Option (List String))
        (refresh : Bool) (cache : AnalyticsRoute.CacheLookup) (r f : Bool),
      AnalyticsRoute.analyticsPOST (Except.ok (some s))
          (some ⟨urls, none, refresh⟩) cache r f = 500) ∧
    (∀ (s : AnalyticsRoute.SessionInfo) (urls : List String)
        (dr : AnalyticsRoute.DateRangeJson) (refresh : Bool)
        (cache : AnalyticsRoute.CacheLookup) (f : Bool),
      urls ≠ [] → (falsyStr dr.start || falsyStr dr.endD) = false →
      (if refresh then AnalyticsRoute.CacheLookup.miss else cache)
          ≠ AnalyticsRoute.CacheLookup.hit →
      AnalyticsRoute.analyticsPOST (Except.ok (some s))
          (some ⟨some urls, some dr, refresh⟩) cache true f = 504) ∧
    (∀ (s : AnalyticsRoute.SessionInfo) (urls : List String)
        (dr : AnalyticsRoute.DateRangeJson) (refresh : Bool)
        (cache : AnalyticsRoute.CacheLookup),
      urls ≠ [] → (falsyStr dr.start || falsyStr dr.endD) = false →
      (if refresh then AnalyticsRoute.CacheLookup.miss else cache)
          ≠ AnalyticsRoute.CacheLookup.hit →
      AnalyticsRoute.analyticsPOST (Except.ok (some s))
          (some ⟨some urls, some dr, refresh⟩) cache false true = 504) ∧
    (∀ (body : Option AnalyticsRoute.RequestBody)
        (cache : AnalyticsRoute.CacheLookup) (r f : Bool),
      AnalyticsRoute.analyticsPOST (Except.error ()) body cache r f = 500) ∧
    (∀ (s : AnalyticsRoute.SessionInfo) (cache : AnalyticsRoute.CacheLookup) (r f : Bool),
      AnalyticsRoute.analyticsPOST (Except.ok (some s)) none cache r f = 500) := by
  refine ⟨fun _ _ _ _ => rfl, fun _ _ _ _ _ _ => rfl, ?_, ?_,
    ?_, ?_, ?_, fun _ _ _ _ => rfl, fun _ _ _ _ => rfl⟩
  · intro s urls dr refresh cache r f hne hfal
    have hlen : urls.length ≠ 0 := by
      simpa [List.length_eq_zero] using hne
    simp [AnalyticsRoute.analyticsPOST, hlen, hfal]
  · intro s dr refresh cache r f
    cases dr <;> rfl
  · intro s urls refresh cache r f
    cases urls <;> rfl
  · intro s urls dr refresh cache f hne hfal hc
    have hlen : urls.length ≠ 0 := by
      simpa [List.length_eq_zero] using hne
    cases hmatch : (if refresh then AnalyticsRoute.CacheLookup.miss else cache) with
    | hit => exact absurd hmatch hc
    | miss => simp [AnalyticsRoute.analyticsPOST, hlen, hfal, hmatch]
    | errored => simp [AnalyticsRoute.analyticsPOST, hlen, hfal, hmatch]
  · intro s urls dr refresh cache hne hfal hc
    have hlen : urls.length ≠ 0 := by
      simpa [List.length_eq_zero] using hne
    cases hmatch : (if refresh then AnalyticsRoute.CacheLookup.miss else cache) with
    | hit => exact absurd hmatch hc
    | miss => simp [AnalyticsRoute.analyticsPOST, hlen, hfal, hmatch]
    | errored => simp [AnalyticsRoute.analyticsPOST, hlen, hfal, hmatch]

theorem c8_status_codes_witness :
    (["/products/a"] : List String) ≠ [] ∧
    (falsyStr (some "2024-01-01") || falsyStr (none : Option String)) = true ∧
    AnalyticsRoute.analyticsPOST
        (Except.ok (some ⟨"x.myshopify.com", "token", "shop_1"⟩))
        (some ⟨some ["/products/a"], some ⟨some "2024-01-01", none⟩, false⟩)
        AnalyticsRoute.CacheLookup.miss false false = 400 := by
  refine ⟨by decide, by decide, ?_⟩
  exact c8_status_codes.2.2.1 ⟨"x.myshopify.com", "token", "shop_1"⟩
    ["/products/a"] ⟨some "2024-01-01", none⟩ false
    AnalyticsRoute.CacheLookup.miss false false (by decide) (by decide)

namespace AuthCallback

/-- `URLSearchParams.get`: first value stored under a key. -/
def searchParamsGet : List (String × String) → String → Option String
  | [], _ => none
  | (k, v) :: rest, key => if k = key then some v else searchParamsGet rest key

/-- Stable insertion of a query entry into a key-sorted list. -/
def insertSortedByKey (e : String × String) :
    List (String × String) → List (String × String)
  | [] => [e]
  | f :: fs => if e.1 ≤ f.1 then e :: f :: fs else f :: insertSortedByKey e fs

/-- `entries.sort((a, b) => a[0].localeCompare(b[0]))` for the ASCII query
keys: stable sort by key. -/
def sortEntriesByKey (l : List (String × String)) : List (String × String) :=
  l.foldr insertSortedByKey []

/-- `verifyHmac` from the OAuth callback route: build the `&`-joined,
key-sorted `key=value` message from every query parameter except `hmac`,
HMAC-SHA256 it (the hex digest function is abstract), and compare with
`crypto.timingSafeEqual` — which THROWS when the two buffers differ in
byte length; modelled as `Except.error`.  The secret comes from the
environment; a missing secret or missing hmac parameter yields `false`. -/
def verifyHmac (secret : Option String) (hmacHex : String → String → String)
    (params : List (String × String)) : Except Unit Bool :=
  match secret with
  | none => Except.ok false
  | some sec =>
    match searchParamsGet params "hmac" with
    | none => Except.ok false
    | some hmac =>
      let entries := params.filter (fun p => p.1 != "hmac")
      let message := String.intercalate "&"
        ((sortEntriesByKey entries).map (fun p => p.1 ++ "=" ++ p.2))
      let computed := hmacHex sec message
      if computed.utf8ByteSize = hmac.utf8ByteSize then Except.ok (computed == hmac)
      else Except.error ()

/-- Outcome of GET /api/auth/callback. -/
inductive CallbackResult where
  | missingParams
  | hmacMismatch
  | crashed
  | authFailed
  | success
deriving Repr, DecidableEq

/-- The OAuth callback handler: 400 when shop, code or hmac is absent or
empty; then HMAC verification — a thrown length mismatch is uncaught
(`verifyHmac` is called outside the try block), a `false` result is answered
403 with no token exchange; only a `true` result reaches the token exchange
and persistence inside the try block (500 on their failure, redirect on
success). -/
def callbackGET (secret : Option String) (hmacHex : String → String → String)
    (params : List (String × String)) (exchangeFails : Bool) : CallbackResult :=
  if falsyStr (searchParamsGet params "shop")
      || falsyStr (searchParamsGet params "code")
      || falsyStr (searchParamsGet params "hmac") then
    CallbackResult.missingParams
  else
    match verifyHmac secret hmacHex params with
    | Except.error _ => CallbackResult.crashed
    | Except.ok false => CallbackResult.hmacMismatch
    | Except.ok true =>
      if exchangeFails then CallbackResult.authFailed else CallbackResult.success

end AuthCallback

/-- C9: a supplied hmac whose byte length differs from the 64-character hex
digest makes `crypto.timingSafeEqual` throw; the exception is not caught, so
the handler crashes (HTTP 500) instead of answering 403 — although the
supplied hmac certainly does not match the computed digest.  Mismatches of
the correct length are answered 403. -/
theorem c9_wrong_length_hmac_crashes (hmacHex : String → String → String)
    (hlen : ∀ key msg, (hmacHex key msg).utf8ByteSize = 64) :
    AuthCallback.verifyHmac (some "shpss_secret") hmacHex
        [("code", "abc123"), ("hmac", "deadbeef"), ("shop", "x.myshopify.com")]
      = Except.error () ∧
    AuthCallback.callbackGET (some "shpss_secret") hmacHex
        [("code", "abc123"), ("hmac", "deadbeef"), ("shop", "x.myshopify.com")] false
      = AuthCallback.CallbackResult.crashed ∧
    AuthCallback.CallbackResult.crashed ≠ AuthCallback.CallbackResult.hmacMismatch ∧
    (∀ params : List (String × String),
      ∀ h : String, AuthCallback.searchParamsGet params "hmac" = some h →
      (hmacHex "shpss_secret" (String.intercalate "&"
          ((AuthCallback.sortEntriesByKey
            (params.filter (fun p => p.1 != "hmac"))).map
              (fun p => p.1 ++ "=" ++ p.2)))).utf8ByteSize = h.utf8ByteSize →
      hmacHex "shpss_secret" (String.intercalate "&"
          ((AuthCallback.sortEntriesByKey
            (params.filter (fun p => p.1 != "hmac"))).map
              (fun p => p.1 ++ "=" ++ p.2))) ≠ h →
      AuthCallback.verifyHmac (some "shpss_secret") hmacHex params
        = Except.ok false) := by
  have hs : AuthCallback.searchParamsGet
      [("code", "abc123"), ("hmac", "deadbeef"), ("shop", "x.myshopify.com")] "hmac"
      = some "deadbeef" := by decide
  have hdb : ("deadbeef" : String).utf8ByteSize = 8 := by decide
  have hb : (AuthCallback.verifyHmac (some "shpss_secret") hmacHex
      [("code", "abc123"), ("hmac", "deadbeef"), ("shop", "x.myshopify.com")])
      = Except.error () := by
    simp [AuthCallback.verifyHmac, hs, hlen, hdb]
  refine ⟨hb, ?_, by decide, ?_⟩
  · unfold AuthCallback.callbackGET
    rw [if_neg (by decide), hb]
  · intro params h hget hlen2 hne
    simp [AuthCallback.verifyHmac, hget, hlen2, hne]

theorem c9_witness :
    ("0123456789abcdef0123456789abcdef0123456789abcdef0123456789abcdef" :
        String).utf8ByteSize = 64 ∧
    AuthCallback.callbackGET (some "shpss_secret")
        (fun _ _ =>
          "0123456789abcdef0123456789abcdef0123456789abcdef0123456789abcdef")
        [("code", "abc123"), ("hmac", "deadbeef"), ("shop", "x.myshopify.com")] false
      = AuthCallback.CallbackResult.crashed := by
  refine ⟨by decide, ?_⟩
  exact (c9_wrong_length_hmac_crashes
    (fun _ _ =>
      "0123456789abcdef0123456789abcdef0123456789abcdef0123456789abcdef")
    (fun key msg => by
      show ("0123456789abcdef0123456789abcdef0123456789abcdef0123456789abcdef" :
        String).utf8ByteSize = 64
      decide)).2.1

end PupLabs
